import Mathlib

/-!
# task-manager-web — verification of the auth subsystem

Shallow embedding of the authentication subsystem of the `task-manager-web`
Angular application: the data model (`src/app/models`), the auth reducer
(`auth.reducers.ts`), the effects' storage interactions (`auth.effects.ts`),
the token store and auth transport (`auth.service.ts`), the route guards
(`auth.guard.ts`) and the HTTP auth interceptor (`auth.interceptor.ts`).

Conventions of the embedding:
* `localStorage` is modelled as a record of the three keys the app uses
  (`ACCESS_TOKEN`, `REFRESH_TOKEN`, `USER`).  `getItem` returns
  `string | null`, modelled as `Option String`; the `USER` slot holds the
  parsed value (`Option User`), abstracting JSON (de)serialisation —
  `JSON.stringify` of a user object is always a non-empty string, and
  `getStoredUser` returns `user ? JSON.parse(user) : null`.
* JavaScript truthiness of a `string | null` value (`if (token) ...`) is
  `truthy`: `null` and the empty string are falsy.
* RxJS observables are evaluated: a network handler is a pure function from
  a request to an outcome, and an interceptor invocation is summarised by a
  `PipelineTrace` recording the produced result, the storage it leaves
  behind, the navigation calls, the number of refresh-exchange calls and
  the requests handed to the downstream handler.
-/

namespace TaskManager

/-! ## Data model (`src/app/models`) -/

/-- `UserTheme` from `user.model.ts`. -/
inductive UserTheme
  | light
  | dark
  | system
deriving DecidableEq

/-- `User` from `user.model.ts`.  Optional fields collapse `absent` and
`null` into `none`. -/
structure User where
  id : String
  name : String
  email : String
  avatar : Option String := none
  theme : Option UserTheme := none
  createdAt : Option String := none
  updatedAt : Option String := none
deriving DecidableEq

/-- `AuthTokens` from `auth.model.ts`. -/
structure AuthTokens where
  accessToken : String
  refreshToken : String
deriving DecidableEq

/-- `LoginRequest` from `auth.model.ts`. -/
structure LoginRequest where
  email : String
  password : String
deriving DecidableEq

/-- `RegisterRequest` from `auth.model.ts`. -/
structure RegisterRequest where
  name : String
  email : String
  password : String
deriving DecidableEq

/-- `AuthResponse` from `auth.model.ts`. -/
structure AuthResponse where
  user : User
  tokens : AuthTokens
deriving DecidableEq

/-- JavaScript truthiness of a `string | null` value: `null` and `""` are
falsy, every other string is truthy. -/
def truthy : Option String → Bool
  | none => false
  | some s => !s.isEmpty

/-! ## `AppConstants` (`app-constants.ts`) -/

namespace AppConstants

def ACCESS_TOKEN_KEY : String := "ACCESS_TOKEN"

def REFRESH_TOKEN_KEY : String := "REFRESH_TOKEN"

def USER_KEY : String := "USER"

def PUBLIC_URLS : List String :=
  ["/auth/login", "/auth/register", "/auth/refresh-token",
   "/auth/forgot-password", "/auth/reset-password"]

end AppConstants

/-! ## Environment (`environments/environment.prod.ts`) -/

/-- `Environment` shape from `environment.models.ts`. -/
structure Environment where
  production : Bool
  apiUrl : String

/-- The production environment object from `environment.prod.ts`. -/
def environment : Environment :=
  { production := true, apiUrl := "https://your-production-api.com/api" }

/-! ## Token store slice of `localStorage` -/

/-- The slice of `localStorage` the app touches: the three keys of
`AppConstants`. -/
structure Storage where
  accessToken : Option String := none
  refreshToken : Option String := none
  user : Option User := none
deriving DecidableEq

namespace AuthService

/-- `setAccessToken`: `localStorage.setItem(ACCESS_TOKEN_KEY, token)`. -/
def setAccessToken (s : Storage) (token : String) : Storage :=
  { s with accessToken := some token }

/-- `getAccessToken`: `localStorage.getItem(ACCESS_TOKEN_KEY)`. -/
def getAccessToken (s : Storage) : Option String :=
  s.accessToken

/-- `setRefreshToken`: `localStorage.setItem(REFRESH_TOKEN_KEY, token)`. -/
def setRefreshToken (s : Storage) (token : String) : Storage :=
  { s with refreshToken := some token }

/-- `getRefreshToken`: `localStorage.getItem(REFRESH_TOKEN_KEY)`. -/
def getRefreshToken (s : Storage) : Option String :=
  s.refreshToken

/-- `clearTokens`: removes the access- and refresh-token keys (and only
those — the `USER` key is left in place). -/
def clearTokens (s : Storage) : Storage :=
  { s with accessToken := none, refreshToken := none }

/-- `isAuthenticated`: `!!this.getAccessToken()`. -/
def isAuthenticated (s : Storage) : Bool :=
  truthy (getAccessToken s)

/-- `storeUser`: `localStorage.setItem(USER_KEY, JSON.stringify(user))`. -/
def storeUser (s : Storage) (u : User) : Storage :=
  { s with user := some u }

/-- `getStoredUser`: `user ? JSON.parse(user) : null`. -/
def getStoredUser (s : Storage) : Option User :=
  s.user

/-- `handleAuthResponse` (private helper of `AuthService`): persists the
access token, the refresh token and the user profile. -/
def handleAuthResponse (s : Storage) (response : AuthResponse) : Storage :=
  storeUser
    (setRefreshToken (setAccessToken s response.tokens.accessToken)
      response.tokens.refreshToken)
    response.user

/-- Storage effect of the `tap` inside `AuthService.login` /
`AuthService.register`: both call `handleAuthResponse` on the unwrapped
response. -/
def loginRegisterTransportWrite (s : Storage) (response : AuthResponse) : Storage :=
  handleAuthResponse s response

/-- Storage effect of the `tap` inside `AuthService.logout`:
`this.clearTokens()`. -/
def logoutTransportWrite (s : Storage) : Storage :=
  clearTokens s

/-- URL targeted by `AuthService.refreshToken`:
`${this.apiUrl}/auth/refresh`. -/
def refreshTokenUrl : String :=
  environment.apiUrl ++ "/auth/refresh"

end AuthService

/-! ## Auth state and reducer (`auth.reducers.ts`) -/

/-- `AuthState` shape, per the reducer's transitions and the spec (§4.4). -/
structure AuthState where
  user : Option User
  accessToken : Option String
  refreshToken : Option String
  isAuthenticated : Bool
  isLoading : Bool
  error : Option String
deriving DecidableEq

/-- Modelled from the spec: `initialAuthState` is declared in
`models/auth/auth-state.model.ts`, which is not part of the source
snapshot.  The spec (§4.4) gives it as `{user:null, accessToken:null,
refreshToken:null, isAuthenticated:false, isLoading:false, error:null}`. -/
def initialAuthState : AuthState :=
  { user := none
    accessToken := none
    refreshToken := none
    isAuthenticated := false
    isLoading := false
    error := none }

/-- The events of the `AuthActions` action group (`auth.actions.ts`). -/
inductive AuthAction
  | login (request : LoginRequest)
  | loginSuccess (response : AuthResponse)
  | loginFailure (error : String)
  | register (request : RegisterRequest)
  | registerSuccess (response : AuthResponse)
  | registerFailure (error : String)
  | logout
  | logoutSuccess
  | logoutFailure (error : String)
  | refreshToken
  | refreshTokenSuccess (response : AuthResponse)
  | refreshTokenFailure (error : String)
  | loadUserFromStorage
  | loadUserFromStorageSuccess (user : User) (accessToken : String) (refreshToken : String)
  | loadUserFromStorageFailure
  | clearError
deriving DecidableEq

/-- `authReducer` from `auth.reducers.ts`, one case per `on(...)` handler.
Actions with no handler (`loadUserFromStorage`) fall through to the
`createReducer` default, returning the state unchanged. -/
def authReducer (state : AuthState) : AuthAction → AuthState
  | .login _ => { state with isLoading := true, error := none }
  | .loginSuccess r =>
      { state with
        user := some r.user
        accessToken := some r.tokens.accessToken
        refreshToken := some r.tokens.refreshToken
        isAuthenticated := true
        isLoading := false
        error := none }
  | .loginFailure e => { state with isLoading := false, error := some e }
  | .register _ => { state with isLoading := true, error := none }
  | .registerSuccess r =>
      { state with
        user := some r.user
        accessToken := some r.tokens.accessToken
        refreshToken := some r.tokens.refreshToken
        isAuthenticated := true
        isLoading := false
        error := none }
  | .registerFailure e => { state with isLoading := false, error := some e }
  | .logout => { state with isLoading := true }
  | .logoutSuccess => initialAuthState
  | .logoutFailure e => { state with isLoading := false, error := some e }
  | .refreshToken => state
  | .refreshTokenSuccess r =>
      { state with
        accessToken := some r.tokens.accessToken
        refreshToken := some r.tokens.refreshToken }
  | .refreshTokenFailure _ => initialAuthState
  | .loadUserFromStorage => state
  | .loadUserFromStorageSuccess u a r =>
      { state with
        user := some u
        accessToken := some a
        refreshToken := some r
        isAuthenticated := true }
  | .loadUserFromStorageFailure => state
  | .clearError => { state with error := none }

/-! ## Route guards (`auth.guard.ts`) -/

/-- The value a `CanActivateFn` guard produces here: `true`, or `false`
after a `router.navigate` call to the given path. -/
inductive GuardDecision
  | allow
  | redirect (path : String)
deriving DecidableEq

/-- `authGuard`: reads the access token; if truthy, activates; otherwise
navigates to `/auth/login` (with a `returnUrl` query parameter, not
modelled) and blocks. -/
def authGuard (s : Storage) : GuardDecision :=
  if truthy (AuthService.getAccessToken s) then .allow
  else .redirect "/auth/login"

/-- `guestGuard`: reads the access token; if falsy, activates; otherwise
navigates to `/dashboard` and blocks. -/
def guestGuard (s : Storage) : GuardDecision :=
  if !truthy (AuthService.getAccessToken s) then .allow
  else .redirect "/dashboard"

/-! ## Effect coordinator storage interactions (`auth.effects.ts`) -/

/-- Storage writes of the `tap` in `AuthEffects.loginSuccess$` /
`AuthEffects.registerSuccess$`: set the access token, set the refresh
token, store the user. -/
def loginSuccessEffectWrite (s : Storage) (response : AuthResponse) : Storage :=
  AuthService.storeUser
    (AuthService.setRefreshToken
      (AuthService.setAccessToken s response.tokens.accessToken)
      response.tokens.refreshToken)
    response.user

/-- Storage write of the `tap` in `AuthEffects.logoutSuccess$`:
`this.authService.clearTokens()`. -/
def logoutSuccessEffectWrite (s : Storage) : Storage :=
  AuthService.clearTokens s

/-- The action produced by `AuthEffects.loadUserFromStorage$`: reads the
stored user, access token and refresh token and dispatches success exactly
when `user && accessToken && refreshToken` is truthy (a parsed user object
is always truthy; a token is truthy when non-null and non-empty). -/
def loadUserFromStorageEffect (s : Storage) : AuthAction :=
  match AuthService.getStoredUser s, AuthService.getAccessToken s,
      AuthService.getRefreshToken s with
  | some u, some a, some r =>
      if !a.isEmpty && !r.isEmpty then .loadUserFromStorageSuccess u a r
      else .loadUserFromStorageFailure
  | _, _, _ => .loadUserFromStorageFailure

/-! ## Event traces over the reducer

Machinery for the `isLoading` invariant: which of the three loading
operations (login, register, logout) have dispatched their request event
without a matching success/failure event yet. -/

/-- The state resulting from dispatching a list of actions, oldest first,
starting from the initial state. -/
def applyActions (l : List AuthAction) : AuthState :=
  l.foldl authReducer initialAuthState

/-- Which operations have a pending (unresolved) request event. -/
structure PendingOps where
  login : Bool
  register : Bool
  logout : Bool
deriving DecidableEq

/-- No operation pending. -/
def noPending : PendingOps :=
  { login := false, register := false, logout := false }

/-- How one dispatched action changes the set of pending operations: a
request event opens its operation, the matching success/failure events
close it, every other event leaves it untouched. -/
def stepPending (p : PendingOps) : AuthAction → PendingOps
  | .login _ => { p with login := true }
  | .loginSuccess _ => { p with login := false }
  | .loginFailure _ => { p with login := false }
  | .register _ => { p with register := true }
  | .registerSuccess _ => { p with register := false }
  | .registerFailure _ => { p with register := false }
  | .logout => { p with logout := true }
  | .logoutSuccess => { p with logout := false }
  | .logoutFailure _ => { p with logout := false }
  | _ => p

/-- Pending operations after a list of dispatched actions. -/
def pendingAfter (l : List AuthAction) : PendingOps :=
  l.foldl stepPending noPending

/-- Some operation has a pending request. -/
def somePending (p : PendingOps) : Bool :=
  p.login || p.register || p.logout

/-! ## HTTP auth interceptor (the Request Pipeline)

The interceptor, `handleUnauthorized`, `trackRefresh` and `addToken`.

An HTTP handler (`HttpHandlerFn`) is modelled as a pure function from a
request to an outcome: either a successful body (opaque `String`) or a
thrown error.  A thrown error is either an `HttpErrorResponse` carrying a
status, or a plain `Error` carrying a message — the interceptor
distinguishes exactly these (`error.status === 401`,
`error instanceof HttpErrorResponse`). -/

/-- An outbound HTTP request: its URL and its `Authorization` header, if
one is set.  Requests are immutable; `clone` with `setHeaders` produces a
new one. -/
structure HttpRequest where
  url : String
  authHeader : Option String := none
deriving DecidableEq

/-- An error observed by `catchError`: an `HttpErrorResponse` with its
status, or any other thrown `Error` with its message. -/
inductive JsError
  | http (status : Nat)
  | plain (message : String)
deriving DecidableEq

/-- The outcome of running one request through a handler. -/
abbrev HttpOutcome := Except JsError String

instance : DecidableEq HttpOutcome := fun a b =>
  match a, b with
  | .ok x, .ok y => decidable_of_iff (x = y) (by simp)
  | .ok _, .error _ => isFalse (by simp)
  | .error _, .ok _ => isFalse (by simp)
  | .error x, .error y => decidable_of_iff (x = y) (by simp)

/-- Substring containment on character lists: `needle` occurs contiguously
somewhere in the haystack. -/
def containsSub (needle : List Char) : List Char → Bool
  | [] => needle.isEmpty
  | c :: rest => needle.isPrefixOf (c :: rest) || containsSub needle rest

/-- JS `String.prototype.includes`: substring containment. -/
def strIncludes (hay needle : String) : Bool :=
  containsSub needle.toList hay.toList

/-- The interceptor's public-URL test:
`AppConstants.PUBLIC_URLS.some((url) => req.url.includes(url))`. -/
def isPublicUrl (reqUrl : String) : Bool :=
  AppConstants.PUBLIC_URLS.any (fun url => strIncludes reqUrl url)

/-- `addToken`: clone the request with header
`Authorization: Bearer ${token}`.  Its parameter is typed
`string | null`; a `null` token would be template-interpolated as the text
`"null"`. -/
def addToken (req : HttpRequest) (token : Option String) : HttpRequest :=
  { req with authHeader := some ("Bearer " ++ token.getD "null") }

/-- Summary of one interceptor invocation: the result delivered to the
caller, the storage left behind, how many refresh-exchange calls were
made, the `router.navigate` targets, and the requests handed to the
downstream handler, in order. -/
structure PipelineTrace where
  result : HttpOutcome
  storage : Storage
  refreshCalls : Nat
  navigations : List String
  sentRequests : List HttpRequest
deriving DecidableEq

/-- `trackRefresh` from the interceptor.  Both `isRefreshing` and
`refreshTokenSubject` are local variables created afresh on every call, so
`isRefreshing` is always `false` and the queue-join branch (piping the
subject through `filter`/`take(1)`/`switchMap`) is unreachable; were it
taken, the freshly created subject never receives a non-null token, so the
joined observable would never emit — modelled as `none`.  The reachable
branch returns `next(req)`. -/
def trackRefresh (next : HttpRequest → HttpOutcome) (req : HttpRequest) :
    Option HttpOutcome :=
  let isRefreshing := false
  if isRefreshing then none
  else some (next req)

/-- The `catchError` clause attached after the refresh exchange in
`handleUnauthorized`: when
`error instanceof HttpErrorResponse && error.status === 401` it clears the
tokens and navigates to `/auth/login`; on any other error it only logs
(no storage change, no navigation).  Either way the error is rethrown. -/
def refreshCatch (storage : Storage) (e : JsError) : Storage × List String :=
  if e = .http 401 then (AuthService.clearTokens storage, ["/auth/login"])
  else (storage, [])

/-- `handleUnauthorized` from the interceptor.  `refreshOutcome` is what
the refresh exchange (`authService.refreshToken()`) delivers when it is
subscribed.  If the stored refresh token is falsy, the pipeline clears the
tokens, navigates to `/auth/login` and fails the request with
`new Error('No refresh token available')`, making no refresh call.
Otherwise the statement `trackRefresh(next, req)` runs (its value is
discarded, and an unsubscribed cold observable performs nothing), then the
refresh exchange is subscribed once; on success the new tokens are
persisted and the request is replayed with the new bearer token; the
trailing `catchError` (see `refreshCatch`) sees both refresh errors and
replay errors. -/
def handleUnauthorized (next : HttpRequest → HttpOutcome)
    (refreshOutcome : Except JsError AuthResponse)
    (storage : Storage) (req : HttpRequest) : PipelineTrace :=
  if !truthy (AuthService.getRefreshToken storage) then
    { result := .error (.plain "No refresh token available")
      storage := AuthService.clearTokens storage
      refreshCalls := 0
      navigations := ["/auth/login"]
      sentRequests := [] }
  else
    let _discarded := trackRefresh next req
    match refreshOutcome with
    | .ok response =>
        let storage1 :=
          AuthService.setRefreshToken
            (AuthService.setAccessToken storage response.tokens.accessToken)
            response.tokens.refreshToken
        let newReq :=
          { req with
            authHeader := some ("Bearer " ++ response.tokens.accessToken) }
        match next newReq with
        | .ok body =>
            { result := .ok body
              storage := storage1
              refreshCalls := 1
              navigations := []
              sentRequests := [newReq] }
        | .error e =>
            let (storage2, navs) := refreshCatch storage1 e
            { result := .error e
              storage := storage2
              refreshCalls := 1
              navigations := navs
              sentRequests := [newReq] }
    | .error e =>
        let (storage2, navs) := refreshCatch storage e
        { result := .error e
          storage := storage2
          refreshCalls := 1
          navigations := navs
          sentRequests := [] }

/-- `authInterceptor` from the interceptor file.  Public URLs are
forwarded untouched with no `catchError` installed.  Otherwise the access
token, when truthy, is attached as a bearer header; a 401 on a non-public
request is routed to `handleUnauthorized` (the interceptor passes the
already-authorized `authReq`); every other error is rethrown. -/
def authInterceptor (next : HttpRequest → HttpOutcome)
    (refreshOutcome : Except JsError AuthResponse)
    (storage : Storage) (req : HttpRequest) : PipelineTrace :=
  if isPublicUrl req.url then
    { result := next req
      storage := storage
      refreshCalls := 0
      navigations := []
      sentRequests := [req] }
  else
    let accessToken := AuthService.getAccessToken storage
    let authReq := if truthy accessToken then addToken req accessToken else req
    match next authReq with
    | .ok body =>
        { result := .ok body
          storage := storage
          refreshCalls := 0
          navigations := []
          sentRequests := [authReq] }
    | .error e =>
        if e = .http 401 && !isPublicUrl req.url then
          let t := handleUnauthorized next refreshOutcome storage authReq
          { t with sentRequests := authReq :: t.sentRequests }
        else
          { result := .error e
            storage := storage
            refreshCalls := 0
            navigations := []
            sentRequests := [authReq] }

/-- A batch of requests that concurrently hit the interceptor: each
invocation reads the same initial storage, and the invocations share no
mutable state (the `isRefreshing` flag and the subject inside
`trackRefresh` are per-call locals), so the batch behavior is the
per-request behavior, independent of interleaving. -/
def processBatch (next : HttpRequest → HttpOutcome)
    (refreshOutcome : Except JsError AuthResponse)
    (storage : Storage) (reqs : List HttpRequest) : List PipelineTrace :=
  reqs.map (authInterceptor next refreshOutcome storage)

/-- Total number of refresh-exchange calls a batch performs. -/
def totalRefreshCalls (l : List PipelineTrace) : Nat :=
  (l.map (fun t => t.refreshCalls)).sum

/-! ## Concrete sample values used by the scenarios -/

/-- A sample user profile. -/
def sampleUser : User :=
  { id := "1", name := "A", email := "a@b.com" }

/-- A sample login request. -/
def sampleLoginRequest : LoginRequest :=
  { email := "a@b.com", password := "secret1" }

/-- Storage of the spec's refresh-then-replay scenario: an expired access
token and a usable refresh token. -/
def oldTokenStorage : Storage :=
  { accessToken := some "AT_OLD", refreshToken := some "RT_OLD",
    user := some sampleUser }

/-- Storage of the spec's refresh-unavailable scenario. -/
def noRefreshStorage : Storage :=
  { accessToken := some "AT_EXPIRED", refreshToken := none, user := none }

/-- A storage state whose access-token slot holds the empty string: every
slot is non-null, yet the access token is JS-falsy. -/
def emptyTokenStorage : Storage :=
  { accessToken := some "", refreshToken := some "RT", user := some sampleUser }

/-- The refresh exchange's successful response in the scenarios. -/
def newTokensResponse : AuthResponse :=
  { user := sampleUser,
    tokens := { accessToken := "AT_NEW", refreshToken := "RT_NEW" } }

/-- A backend that accepts exactly the requests carrying the fresh bearer
token and answers 401 to everything else. -/
def staleRejectingBackend : HttpRequest → HttpOutcome := fun r =>
  if r.authHeader = some "Bearer AT_NEW" then .ok "data" else .error (.http 401)

/-- A backend that answers 401 to every request. -/
def alwaysUnauthorizedBackend : HttpRequest → HttpOutcome := fun _ =>
  .error (.http 401)

/-- Two distinct concurrently-failing protected requests. -/
def protectedReqA : HttpRequest :=
  { url := "https://your-production-api.com/api/tasks/1" }

/-- Second protected request of the batch. -/
def protectedReqB : HttpRequest :=
  { url := "https://your-production-api.com/api/tasks/2" }

/-! ## Theorems -/

/-- C5: for every auth state `s`, the reducer maps the logout-success
event and the refresh-token-failure event to a state equal by value to
the initial state `{user:null, accessToken:null, refreshToken:null,
isAuthenticated:false, isLoading:false, error:null}`, regardless of `s`. -/
theorem c5_full_reset_on_logout_and_refresh_failure :
    (∀ s : AuthState, authReducer s .logoutSuccess = initialAuthState) ∧
    (∀ (s : AuthState) (e : String),
        authReducer s (.refreshTokenFailure e) = initialAuthState) ∧
    initialAuthState =
      { user := none, accessToken := none, refreshToken := none,
        isAuthenticated := false, isLoading := false, error := none } :=
  ⟨fun _ => rfl, fun _ _ => rfl, rfl⟩

/-- C6: for every auth state `s` and refresh-token-success event, the
reducer output takes `accessToken`/`refreshToken` from the event payload
and leaves `user`, `isAuthenticated`, `isLoading` and `error` exactly as
in `s` (any `s`, including one with a non-null user). -/
theorem c6_refresh_success_frame :
    ∀ (s : AuthState) (r : AuthResponse),
      (authReducer s (.refreshTokenSuccess r)).user = s.user ∧
      (authReducer s (.refreshTokenSuccess r)).isAuthenticated = s.isAuthenticated ∧
      (authReducer s (.refreshTokenSuccess r)).isLoading = s.isLoading ∧
      (authReducer s (.refreshTokenSuccess r)).error = s.error ∧
      (authReducer s (.refreshTokenSuccess r)).accessToken = some r.tokens.accessToken ∧
      (authReducer s (.refreshTokenSuccess r)).refreshToken = some r.tokens.refreshToken :=
  fun _ _ => ⟨rfl, rfl, rfl, rfl, rfl, rfl⟩

/-- One reducer/pending step preserves the loading invariant: if
`isLoading` could only be true under a pending request before the step, the
same holds after it. -/
theorem pending_step_inv (s : AuthState) (p : PendingOps) (a : AuthAction)
    (h : s.isLoading = true → somePending p = true) :
    (authReducer s a).isLoading = true → somePending (stepPending p a) = true := by
  cases a <;>
    simp only [authReducer, stepPending, somePending, initialAuthState] at * <;>
    simp_all

/-- The loading invariant is preserved along any fold of dispatched
actions. -/
theorem pending_foldl_inv (l : List AuthAction) :
    ∀ (s : AuthState) (p : PendingOps),
      (s.isLoading = true → somePending p = true) →
      ((l.foldl authReducer s).isLoading = true →
        somePending (l.foldl stepPending p) = true) := by
  induction l with
  | nil => intro s p h; exact h
  | cons a t ih => intro s p h; exact ih _ _ (pending_step_inv s p a h)

/-- C7: (1) no event other than a login/register/logout request event
turns `isLoading` from false to true; (2) in every state reachable from
the initial state by a sequence of dispatched events, `isLoading = true`
implies some operation has a pending (unresolved) request event. -/
theorem c7_isLoading_only_while_pending :
    (∀ (s : AuthState) (a : AuthAction),
        (authReducer s a).isLoading = true →
          s.isLoading = true ∨
            (∃ req, a = .login req) ∨ (∃ req, a = .register req) ∨ a = .logout) ∧
    (∀ l : List AuthAction,
        (applyActions l).isLoading = true →
          somePending (pendingAfter l) = true) := by
  constructor
  · intro s a
    cases a <;> simp [authReducer, initialAuthState]
  · intro l
    exact pending_foldl_inv l initialAuthState noPending (by intro h; simp [initialAuthState] at h)

/-- Witness for C7 at the one-event trace `[login]`: the state after the
login request has `isLoading = true` and the login operation is pending. -/
theorem c7_witness :
    (initialAuthState.isLoading = true ∨
        (∃ req, AuthAction.login sampleLoginRequest = .login req) ∨
        (∃ req, AuthAction.login sampleLoginRequest = .register req) ∨
        AuthAction.login sampleLoginRequest = .logout) ∧
      somePending (pendingAfter [AuthAction.login sampleLoginRequest]) = true := by
  constructor
  · exact c7_isLoading_only_while_pending.1 initialAuthState
      (.login sampleLoginRequest) rfl
  · exact c7_isLoading_only_while_pending.2 [.login sampleLoginRequest] rfl

/-- C8: the transport operations themselves write the Token Store: the
`tap` inside `AuthService.login`/`register` persists the returned access
token, refresh token and user profile, and the `tap` inside
`AuthService.logout` clears the stored tokens.  The Effect Coordinator's
duplicate persistence on the corresponding success action is the identity
on the storage the transport write already produced, so the transport
write alone determines the stored state. -/
theorem c8_transport_writes_storage :
    ∀ (s : Storage) (r : AuthResponse),
      ((AuthService.loginRegisterTransportWrite s r).accessToken =
          some r.tokens.accessToken ∧
        (AuthService.loginRegisterTransportWrite s r).refreshToken =
          some r.tokens.refreshToken ∧
        (AuthService.loginRegisterTransportWrite s r).user = some r.user) ∧
      loginSuccessEffectWrite (AuthService.loginRegisterTransportWrite s r) r =
        AuthService.loginRegisterTransportWrite s r ∧
      ((AuthService.logoutTransportWrite s).accessToken = none ∧
        (AuthService.logoutTransportWrite s).refreshToken = none) ∧
      logoutSuccessEffectWrite (AuthService.logoutTransportWrite s) =
        AuthService.logoutTransportWrite s :=
  fun _ _ => ⟨⟨rfl, rfl, rfl⟩, rfl, ⟨rfl, rfl⟩, rfl⟩

/-- Counterexample to C9 as stated: a storage state whose three slots are
all non-null, on which the load-from-storage effect nevertheless
dispatches the failure event, because the stored access token is the empty
string and `user && accessToken && refreshToken` is JS-falsy. -/
theorem c9_counterexample :
    emptyTokenStorage.user ≠ none ∧
      emptyTokenStorage.accessToken ≠ none ∧
      emptyTokenStorage.refreshToken ≠ none ∧
      loadUserFromStorageEffect emptyTokenStorage = .loadUserFromStorageFailure := by
  refine ⟨?_, ?_, ?_, rfl⟩ <;> simp [emptyTokenStorage]

/-- C9 (amended): the load-from-storage effect dispatches the success
event, with the payload read from storage, exactly when all three slots
are JS-truthy (user non-null, both tokens non-null and non-empty);
otherwise it dispatches the failure event, whose reducer transition is the
identity; the success transition sets the three fields and
`isAuthenticated := true`. -/
theorem c9_load_from_storage_truthy :
    (∀ (s : Storage) (u : User) (a r : String),
        loadUserFromStorageEffect s = .loadUserFromStorageSuccess u a r ↔
          (s.user = some u ∧ s.accessToken = some a ∧ s.refreshToken = some r ∧
            a.isEmpty = false ∧ r.isEmpty = false)) ∧
    (∀ s : Storage,
        loadUserFromStorageEffect s = .loadUserFromStorageFailure ↔
          ¬(s.user ≠ none ∧ truthy s.accessToken = true ∧
              truthy s.refreshToken = true)) ∧
    (∀ st : AuthState, authReducer st .loadUserFromStorageFailure = st) ∧
    (∀ (st : AuthState) (u : User) (a r : String),
        authReducer st (.loadUserFromStorageSuccess u a r) =
          { st with user := some u, accessToken := some a,
                    refreshToken := some r, isAuthenticated := true }) := by
  refine ⟨?_, ?_, fun _ => rfl, fun _ _ _ _ => rfl⟩
  · intro s u a r
    unfold loadUserFromStorageEffect AuthService.getStoredUser
      AuthService.getAccessToken AuthService.getRefreshToken
    rcases s with ⟨at?, rt?, u?⟩
    rcases u? with _ | u' <;> rcases at? with _ | a' <;> rcases rt? with _ | r' <;>
      simp <;> cases ha : a'.isEmpty <;> cases hr : r'.isEmpty <;>
      simp [ha, hr] <;> aesop
  · intro s
    unfold loadUserFromStorageEffect AuthService.getStoredUser
      AuthService.getAccessToken AuthService.getRefreshToken
    rcases s with ⟨at?, rt?, u?⟩
    rcases u? with _ | u' <;> rcases at? with _ | a' <;> rcases rt? with _ | r' <;>
      simp [truthy]

/-- C10: over every storage state, `authGuard` allows activation exactly
when an access token is present (present in the sense the token store
itself defines presence: `!!getAccessToken()`, i.e. JS-truthy), otherwise
it redirects to `/auth/login`; `guestGuard` allows exactly when no access
token is present, otherwise it redirects to `/dashboard`; hence exactly
one of the two guards allows any given storage state. -/
theorem c10_guards_exact_complements :
    ∀ s : Storage,
      (authGuard s = .allow ↔ truthy (AuthService.getAccessToken s) = true) ∧
      (authGuard s = .allow ∨ authGuard s = .redirect "/auth/login") ∧
      (guestGuard s = .allow ↔ truthy (AuthService.getAccessToken s) = false) ∧
      (guestGuard s = .allow ∨ guestGuard s = .redirect "/dashboard") ∧
      (authGuard s = .allow ↔ ¬guestGuard s = .allow) := by
  intro s
  unfold authGuard guestGuard
  cases h : truthy (AuthService.getAccessToken s) <;> simp [h]

/-- C3: when the refresh exchange itself fails with error `e`, the
pipeline makes exactly the one refresh call, propagates `e` to the
original caller, and clears the Token Store and navigates to `/auth/login`
precisely when `e` is an `HttpErrorResponse` with status 401; for every
other failure the storage is left exactly as it was before the refresh
attempt and no navigation happens. -/
theorem c3_refresh_failure_cleanup_iff_401 (next : HttpRequest → HttpOutcome)
    (storage : Storage) (req : HttpRequest) (e : JsError)
    (hrt : truthy (AuthService.getRefreshToken storage) = true) :
    (handleUnauthorized next (.error e) storage req).result = .error e ∧
    (handleUnauthorized next (.error e) storage req).refreshCalls = 1 ∧
    ((handleUnauthorized next (.error e) storage req).storage =
          AuthService.clearTokens storage ∧
        (handleUnauthorized next (.error e) storage req).navigations =
          ["/auth/login"] ↔
      e = .http 401) ∧
    (e ≠ .http 401 →
      (handleUnauthorized next (.error e) storage req).storage = storage ∧
      (handleUnauthorized next (.error e) storage req).navigations = []) := by
  by_cases h : e = .http 401 <;>
    simp [handleUnauthorized, refreshCatch, hrt, h, AuthService.clearTokens]

/-- Witness for C3 at a concrete non-401 refresh failure: the error is
propagated, one refresh call is made, and the storage is untouched. -/
theorem c3_witness :
    (handleUnauthorized (fun _ => .ok "unused") (.error (.plain "network down"))
          oldTokenStorage protectedReqA).result = .error (.plain "network down") ∧
    (handleUnauthorized (fun _ => .ok "unused") (.error (.plain "network down"))
          oldTokenStorage protectedReqA).refreshCalls = 1 ∧
    ((handleUnauthorized (fun _ => .ok "unused") (.error (.plain "network down"))
            oldTokenStorage protectedReqA).storage =
          AuthService.clearTokens oldTokenStorage ∧
        (handleUnauthorized (fun _ => .ok "unused") (.error (.plain "network down"))
            oldTokenStorage protectedReqA).navigations = ["/auth/login"] ↔
      JsError.plain "network down" = .http 401) ∧
    (JsError.plain "network down" ≠ .http 401 →
      (handleUnauthorized (fun _ => .ok "unused") (.error (.plain "network down"))
          oldTokenStorage protectedReqA).storage = oldTokenStorage ∧
      (handleUnauthorized (fun _ => .ok "unused") (.error (.plain "network down"))
          oldTokenStorage protectedReqA).navigations = []) :=
  c3_refresh_failure_cleanup_iff_401 (fun _ => .ok "unused") oldTokenStorage
    protectedReqA (.plain "network down") (by decide)

/-- C4: a non-public request that receives a 401 while the Token Store
holds no refresh token makes the pipeline clear the Token Store, navigate
to `/auth/login`, reject the original request with
`new Error('No refresh token available')`, and perform zero
refresh-exchange calls. -/
theorem c4_no_refresh_token (next : HttpRequest → HttpOutcome)
    (refreshOutcome : Except JsError AuthResponse)
    (storage : Storage) (req : HttpRequest)
    (hpub : isPublicUrl req.url = false)
    (hrt : storage.refreshToken = none)
    (h401 : ∀ r : HttpRequest, next r = .error (.http 401)) :
    authInterceptor next refreshOutcome storage req =
      { result := .error (.plain "No refresh token available")
        storage := AuthService.clearTokens storage
        refreshCalls := 0
        navigations := ["/auth/login"]
        sentRequests :=
          [if truthy storage.accessToken
            then addToken req storage.accessToken else req] } := by
  simp [authInterceptor, hpub, h401, handleUnauthorized,
    AuthService.getRefreshToken, AuthService.getAccessToken, hrt, truthy]

/-- Witness for C4 at the spec's refresh-unavailable scenario: storage
holds `accessToken="AT_EXPIRED"`, `refreshToken=null`, and the backend
answers 401. -/
theorem c4_witness :
    authInterceptor alwaysUnauthorizedBackend (.error (.plain "unused"))
        noRefreshStorage protectedReqA =
      { result := .error (.plain "No refresh token available")
        storage := AuthService.clearTokens noRefreshStorage
        refreshCalls := 0
        navigations := ["/auth/login"]
        sentRequests :=
          [if truthy noRefreshStorage.accessToken
            then addToken protectedReqA noRefreshStorage.accessToken
            else protectedReqA] } :=
  c4_no_refresh_token alwaysUnauthorizedBackend (.error (.plain "unused"))
    noRefreshStorage protectedReqA (by decide) rfl (fun _ => rfl)

/-- C1 fails on the code: `trackRefresh` declares `isRefreshing` and the
token subject as fresh locals on every call — the flag is always `false`,
so the queue-join branch is unreachable and the call's value is discarded
anyway — hence every request of a concurrent 401 batch initiates its own
refresh exchange.  Concretely, a batch of two protected requests that both
receive 401 while storage holds `AT_OLD`/`RT_OLD` performs two refresh
calls, not one, although each request is replayed with the fresh token and
succeeds. -/
theorem c1_each_401_initiates_its_own_refresh :
    (∀ (next : HttpRequest → HttpOutcome) (req : HttpRequest),
        trackRefresh next req = some (next req)) ∧
    totalRefreshCalls
        (processBatch staleRejectingBackend (.ok newTokensResponse)
          oldTokenStorage [protectedReqA, protectedReqB]) = 2 ∧
    totalRefreshCalls
        (processBatch staleRejectingBackend (.ok newTokensResponse)
          oldTokenStorage [protectedReqA, protectedReqB]) ≠ 1 ∧
    (processBatch staleRejectingBackend (.ok newTokensResponse)
        oldTokenStorage [protectedReqA, protectedReqB]).map
      (fun t => t.refreshCalls) = [1, 1] ∧
    (processBatch staleRejectingBackend (.ok newTokensResponse)
        oldTokenStorage [protectedReqA, protectedReqB]).map
      (fun t => t.result) = [.ok "data", .ok "data"] ∧
    (processBatch staleRejectingBackend (.ok newTokensResponse)
        oldTokenStorage [protectedReqA, protectedReqB]).map
      (fun t => t.sentRequests) =
      [[addToken protectedReqA (some "AT_OLD"),
        addToken protectedReqA (some "AT_NEW")],
       [addToken protectedReqB (some "AT_OLD"),
        addToken protectedReqB (some "AT_NEW")]] :=
  ⟨fun _ _ => rfl, by decide, by decide, by decide, by decide, by decide⟩

/-- C2 fails on the code for the refresh request the Auth Transport itself
issues: `AuthService.refreshToken` posts to `${apiUrl}/auth/refresh`,
which matches no entry of `AppConstants.PUBLIC_URLS` (the list carries
`/auth/refresh-token` instead), so the interceptor attaches the stored
bearer token to it and a 401 from it initiates a refresh exchange.  For a
URL that does contain an allow-list entry (e.g. the login endpoint) the
request is forwarded unmodified and its 401 is not intercepted. -/
theorem c2_refresh_request_not_allow_listed :
    isPublicUrl AuthService.refreshTokenUrl = false ∧
    (authInterceptor staleRejectingBackend (.ok newTokensResponse)
        oldTokenStorage { url := AuthService.refreshTokenUrl }).sentRequests.head? =
      some { url := AuthService.refreshTokenUrl,
             authHeader := some "Bearer AT_OLD" } ∧
    (authInterceptor staleRejectingBackend (.ok newTokensResponse)
        oldTokenStorage { url := AuthService.refreshTokenUrl }).refreshCalls = 1 ∧
    isPublicUrl (environment.apiUrl ++ "/auth/login") = true ∧
    authInterceptor alwaysUnauthorizedBackend (.ok newTokensResponse)
        oldTokenStorage { url := environment.apiUrl ++ "/auth/login" } =
      { result := .error (.http 401)
        storage := oldTokenStorage
        refreshCalls := 0
        navigations := []
        sentRequests := [{ url := environment.apiUrl ++ "/auth/login" }] } :=
  ⟨by decide, by decide, by decide, by decide, by decide⟩

end TaskManager
